import Mathlib

/-!
# auth-client: verification of the session-security core

Shallow embedding of the auth-client library (token store, refresh
coordinator, proactive refresh scheduler, session monitor, callback
processor) with proofs about the behaviours its specification claims.

The embedding follows the current versions of the modules:
* `token.js` (the variant with the expiry helpers): token store,
  listeners, refresh-token storage, `getTimeUntilExpiry`, `willExpireSoon`;
* `core.js`: `refreshToken` (in-flight guard), `validateCurrentSession`,
  `startProactiveRefresh`, `startSessionMonitor`, `handleCallback`,
  `notifySessionInvalid`.

JavaScript's single-threaded cooperative model is embedded by explicit
state passing: the synchronous prefix of an `async` function is a pure
function of the state, and each `await` boundary is a separate settlement
function parameterised by the network outcome.  Pending promise reactions
are kept as an explicit FIFO list of waiters, matching the order in which
`.catch`/`await` continuations are attached and therefore run.
-/

namespace AuthClient

/-! ## String helpers

`err.message?.toLowerCase()` and `String.prototype.includes` from the
source are modelled on `List Char` so that they compute by kernel
reduction (ASCII case folding, which covers every message the library
builds). -/

/-- ASCII lower-casing of one character, the behaviour of
`String.prototype.toLowerCase` on the ASCII messages the library builds. -/
def lowChar (c : Char) : Char :=
  if 'A' ≤ c ∧ c ≤ 'Z' then Char.ofNat (c.toNat + 32) else c

/-- `msg.toLowerCase()` as a character list. -/
def lowStr (s : String) : List Char := s.data.map lowChar

/-- Boolean prefix test on character lists. -/
def isPrefixB : List Char → List Char → Bool
  | [], _ => true
  | _ :: _, [] => false
  | a :: as, b :: bs => a = b && isPrefixB as bs

/-- `hay.includes(needle)` (substring containment), on character lists. -/
def containsSub (hay needle : List Char) : Bool :=
  match hay with
  | [] => needle.isEmpty
  | _ :: t => isPrefixB needle hay || containsSub t needle

/-! ## JavaScript values

`setToken` is called with arbitrary JS values (`token || null` normalises
falsy arguments); the store may therefore hold any primitive.  Object
values never reach the store in this library, so primitives suffice and
`!==` coincides with structural inequality. -/

/-- JS primitive values, as passed to `setToken` and held by the store. -/
inductive JSVal where
  | null
  | undef
  | str (s : String)
  | num (n : Int)
  | bool (b : Bool)
deriving DecidableEq

/-- JS truthiness of a primitive value. -/
def JSVal.truthy : JSVal → Bool
  | .null => false
  | .undef => false
  | .str s => !s.isEmpty
  | .num n => n != 0
  | .bool b => b

/-- Truthiness of a nullable slot (`null`/`undefined` are both falsy). -/
def jsTruthy : Option JSVal → Bool
  | none => false
  | some v => v.truthy

/-- Truthiness of a nullable string (URL parameters, response fields). -/
def strTruthy : Option String → Bool
  | none => false
  | some s => !s.isEmpty

/-! ## Token store (`token.js`, current variant)

State of the module: the in-memory `accessToken`, the persistent mirrors
(`localStorage.authToken`, `localStorage.auth_refresh_token`, the
`account_refresh_token` cookie and sessionStorage entry) and the
registered listener set.  Listeners are identified by numbers; an
invocation is recorded as a `ListenerCall` event. -/

/-- The token module's mutable state plus the storage it touches. -/
structure TokenStore where
  /-- module-level `accessToken` -/
  accessToken : Option JSVal
  /-- `localStorage` entry `authToken` -/
  localAuthToken : Option JSVal
  /-- `localStorage` entry `auth_refresh_token` -/
  localRefreshToken : Option String
  /-- the `account_refresh_token` cookie (client-visible part) -/
  cookieRefreshToken : Option String
  /-- `sessionStorage` entry `account_refresh_token` -/
  sessionRefreshToken : Option String
  /-- registered token listeners (a set of ids) -/
  listeners : List Nat
deriving DecidableEq

/-- One synchronous listener invocation `listener(newToken, previousToken)`. -/
structure ListenerCall where
  listener : Nat
  newToken : Option JSVal
  previousToken : Option JSVal
deriving DecidableEq

/-- `writeAccessToken(token)`: clear the `authToken` localStorage entry on a
falsy argument, otherwise persist the value. -/
def writeAccessToken (token : Option JSVal) (st : TokenStore) : TokenStore :=
  if jsTruthy token then { st with localAuthToken := token }
  else { st with localAuthToken := none }

/-- `readAccessToken()`: read the `authToken` localStorage entry. -/
def readAccessToken (st : TokenStore) : Option JSVal :=
  st.localAuthToken

/-- `clearRefreshToken()`: clears the localStorage key, expires the cookie
and removes the sessionStorage entry. -/
def clearRefreshToken (st : TokenStore) : TokenStore :=
  { st with localRefreshToken := none, cookieRefreshToken := none,
            sessionRefreshToken := none }

/-- The value `token || null` stored by `setToken`. -/
def jsNorm (token : JSVal) : Option JSVal :=
  if token.truthy then some token else none

/-- `setToken(token)`: normalise, persist, and — iff the stored value
changed — invoke every listener with `(newToken, previousToken)`. -/
def setToken (token : JSVal) (st : TokenStore) : TokenStore × List ListenerCall :=
  let previousToken := st.accessToken
  let newToken := jsNorm token
  let st1 := writeAccessToken newToken { st with accessToken := newToken }
  if previousToken ≠ newToken then
    (st1, st1.listeners.map fun l => ⟨l, newToken, previousToken⟩)
  else
    (st1, [])

/-- `getToken()`: return the in-memory token if truthy, otherwise hydrate
it from persistent storage; returns the token and the updated store. -/
def getToken (st : TokenStore) : Option JSVal × TokenStore :=
  if jsTruthy st.accessToken then (st.accessToken, st)
  else
    let a := readAccessToken st
    (a, { st with accessToken := a })

/-- `clearToken()`: if no token is held, still clear persistent storage and
refresh-token storage without firing listeners; otherwise clear everything
and fire listeners with `(null, previousToken)`. -/
def clearToken (st : TokenStore) : TokenStore × List ListenerCall :=
  if !jsTruthy st.accessToken then
    (clearRefreshToken (writeAccessToken none st), [])
  else
    let previousToken := st.accessToken
    let st1 := clearRefreshToken
      (writeAccessToken none { st with accessToken := none })
    (st1, st1.listeners.map fun l => ⟨l, none, previousToken⟩)

/-! ## Configuration (`config.js` fields consumed by the core) -/

/-- The configuration fields the session-security core reads, plus the
environment facts (`window.location.protocol`) that select the
refresh-token custody mode. -/
structure Config where
  enableProactiveRefresh : Bool
  /-- `tokenRefreshBuffer`, in seconds -/
  tokenRefreshBuffer : Int
  enableSessionValidation : Bool
  /-- `sessionValidationInterval`, in milliseconds -/
  sessionValidationInterval : Int
  validateOnVisibility : Bool
  persistRefreshToken : Bool
  /-- whether `window.location.protocol` is `http:` -/
  isHttpDev : Bool
  /-- whether `authBaseUrl` is configured (truthy) -/
  hasAuthBaseUrl : Bool
deriving DecidableEq

/-- `shouldUseLocalStorage()`: explicit-storage custody is active when
persistence is forced or the app runs on plain HTTP. -/
def shouldUseLocalStorage (cfg : Config) : Bool :=
  cfg.persistRefreshToken || cfg.isHttpDev

/-- `setRefreshToken(token)`: falsy argument clears; in explicit-storage
mode the token goes to localStorage; in cookie-custody mode the call only
logs (the cookie is owned by the server). -/
def setRefreshToken (cfg : Config) (token : String) (st : TokenStore) : TokenStore :=
  if token.isEmpty then clearRefreshToken st
  else if shouldUseLocalStorage cfg then { st with localRefreshToken := some token }
  else st

/-! ## Expiry helpers (`token.js`)

`jwtDecode` is an external library; it is modelled as a parameter
`decode : String → Option JwtPayload` (`none` = the decode threw).  Time
`now` is `Date.now() / 1000` in (possibly fractional) seconds. -/

/-- The decoded JWT payload, restricted to the only claim the client
reads.  `exp` is seconds since the epoch and may be fractional. -/
structure JwtPayload where
  exp : Option ℚ
deriving DecidableEq

/-- `decode(token)`: apply `jwtDecode` to a string, `null` on anything
else (the library throws on non-strings). -/
def decodeVal (decode : String → Option JwtPayload) : JSVal → Option JwtPayload
  | .str s => decode s
  | _ => none

/-- `getTimeUntilExpiry(token)`: `-1` on a falsy token, an undecodable
token, or a falsy `exp` claim; otherwise `Math.floor(exp - now)`. -/
def getTimeUntilExpiry (decode : String → Option JwtPayload)
    (token : Option JSVal) (now : ℚ) : Int :=
  match token with
  | none => -1
  | some v =>
    if !v.truthy then -1
    else
      match decodeVal decode v with
      | none => -1
      | some payload =>
        match payload.exp with
        | none => -1
        | some e => if e = 0 then -1 else ⌊e - now⌋

/-- `willExpireSoon(token, withinSeconds)`:
`timeLeft >= 0 && timeLeft <= withinSeconds`. -/
def willExpireSoon (decode : String → Option JwtPayload)
    (token : Option JSVal) (withinSeconds : Int) (now : ℚ) : Bool :=
  let timeLeft := getTimeUntilExpiry decode token now
  decide (timeLeft ≥ 0) && decide (timeLeft ≤ withinSeconds)

/-! ## Refresh coordinator (`core.js`, `refreshToken`)

`refreshToken` checks a module-level in-flight guard (`refreshInProgress`
plus `refreshPromise`) synchronously, so under cooperative scheduling a
call made while a refresh is pending returns the stored promise without
starting a second request.  The asynchronous body is split into the
synchronous call prefix (`refreshTokenCall`) and the settlement of the
fetch (`settleRefresh`), parameterised by the network outcome. -/

/-- Module state of `core.js` relevant to the refresh coordinator. -/
structure CoreState where
  store : TokenStore
  /-- module-level `refreshInProgress` flag -/
  refreshInProgress : Bool
  /-- module-level `refreshPromise` (a pending promise id, or `null`) -/
  refreshPromise : Option Nat
deriving DecidableEq

/-- What the synchronous part of a `refreshToken()` call did. -/
inductive RefreshCall where
  /-- the existing pending promise was returned; no request issued -/
  | joined (pid : Nat)
  /-- the guard was taken, a new promise stored, one request issued -/
  | started (pid : Nat)
deriving DecidableEq

/-- The synchronous prefix of `refreshToken()`: either join the pending
promise (guard set and promise stored) or take the guard, allocate a new
promise and issue the network request.  The `Nat` component counts the
network refresh requests issued by this call. -/
def refreshTokenCall (s : CoreState) (fresh : Nat) : CoreState × RefreshCall × Nat :=
  if s.refreshInProgress && s.refreshPromise.isSome then
    (s, .joined (s.refreshPromise.getD 0), 0)
  else
    ({ s with refreshInProgress := true, refreshPromise := some fresh },
     .started fresh, 1)

/-- Decidable equality for `Except`, so that concrete settlement results
can be evaluated. -/
instance {ε α : Type} [DecidableEq ε] [DecidableEq α] :
    DecidableEq (Except ε α) := fun x y =>
  match x, y with
  | .ok a, .ok b =>
    if h : a = b then isTrue (h ▸ rfl) else isFalse (fun he => h (Except.ok.inj he))
  | .error a, .error b =>
    if h : a = b then isTrue (h ▸ rfl) else isFalse (fun he => h (Except.error.inj he))
  | .ok _, .error _ => isFalse (fun he => Except.noConfusion he)
  | .error _, .ok _ => isFalse (fun he => Except.noConfusion he)

/-- Body of a `/refresh` response as the client reads it. -/
structure RefreshBody where
  access_token : Option String
  refresh_token : Option String
deriving DecidableEq

/-- Outcome of a `fetch` call: a network-layer rejection, or a response
with its `ok` flag, status and parsed body. -/
inductive FetchOutcome where
  | netError (msg : String)
  | response (ok : Bool) (status : Nat) (body : RefreshBody)
deriving DecidableEq

/-- The result the `try` block of the refresh body computes from the fetch
outcome: the new access token and optional rotated refresh token, or the
message of the error thrown (non-ok status, missing access token) or
propagated (network failure). -/
def refreshAttemptResult : FetchOutcome → Except String (String × Option String)
  | .netError msg => .error msg
  | .response ok status body =>
    if !ok then .error ("Refresh failed: " ++ toString status)
    else
      match body.access_token with
      | none => .error "No access token in refresh response"
      | some a =>
        if a.isEmpty then .error "No access token in refresh response"
        else .ok (a, body.refresh_token)

/-- Settlement of the pending refresh: on success `setToken` (firing
listeners) and store a rotated refresh token if provided; on failure
`clearToken(); clearRefreshToken()` and rethrow; in both cases the
`finally` block releases the guard and drops the promise.  Returns the
new state, the value every waiter of the promise receives, and the
listener invocations performed. -/
def settleRefresh (cfg : Config) (s : CoreState) (o : FetchOutcome) :
    CoreState × Except String String × List ListenerCall :=
  match refreshAttemptResult o with
  | .ok (a, rotated) =>
    let (st1, calls) := setToken (.str a) s.store
    let st2 :=
      match rotated with
      | some r => if !r.isEmpty then setRefreshToken cfg r st1 else st1
      | none => st1
    ({ store := st2, refreshInProgress := false, refreshPromise := none },
     .ok a, calls)
  | .error msg =>
    let (st1, calls) := clearToken s.store
    let st2 := clearRefreshToken st1
    ({ store := st2, refreshInProgress := false, refreshPromise := none },
     .error msg, calls)

/-! ## Session validation (`core.js`, `validateCurrentSession`) -/

/-- Outcome of the `validate-session` fetch: network rejection, or a
response with `ok`, status, `statusText` and the parsed `valid` field of
the body (a JS value, compared with `=== true`). -/
inductive ValidationFetch where
  | netError (msg : String)
  | response (ok : Bool) (status : Nat) (statusText : String) (valid : JSVal)
deriving DecidableEq

/-- `validateCurrentSession()`: `false` without a token or base URL; `401`
(status or a caught message containing `401`) is a normal invalid result;
other failures propagate; otherwise the result is `data.valid === true`. -/
def validateCurrentSession (cfg : Config) (token : Option JSVal)
    (vf : ValidationFetch) : Except String Bool :=
  if !jsTruthy token || !cfg.hasAuthBaseUrl then .ok false
  else
    match vf with
    | .netError msg =>
      if containsSub msg.data "401".data then .ok false else .error msg
    | .response ok status statusText valid =>
      if !ok then
        if status = 401 then .ok false
        else
          let m := "HTTP " ++ toString status ++ ": " ++ statusText
          if containsSub m.data "401".data then .ok false else .error m
      else .ok (valid = .bool true)

/-! ## Session security state (`core.js` module state) -/

/-- Module state of the session-security subsystem: the refresh
coordinator state, the two timer handles and the visibility subscription,
and the registered session-invalid callbacks (ids). -/
structure SecState where
  core : CoreState
  /-- `proactiveRefreshTimer`: pending delay in ms, or `null` -/
  proactiveRefreshTimer : Option Int
  /-- whether `sessionValidationTimer` is live -/
  monitorRunning : Bool
  /-- whether `visibilityHandler` is subscribed -/
  visibilityHandlerInstalled : Bool
  /-- `sessionInvalidCallbacks` (a set of ids) -/
  sessionInvalidCallbacks : List Nat
deriving DecidableEq

/-- One session-invalid callback invocation `callback(reason)`. -/
structure Notif where
  callback : Nat
  reason : String
deriving DecidableEq

/-- `notifySessionInvalid(reason)`: fire every registered callback once. -/
def notifySessionInvalid (reason : String) (s : SecState) : List Notif :=
  s.sessionInvalidCallbacks.map fun cb => ⟨cb, reason⟩

/-- `stopProactiveRefresh()`: cancel the pending proactive timer. -/
def stopProactiveRefresh (s : SecState) : SecState :=
  { s with proactiveRefreshTimer := none }

/-- `stopSessionMonitor()`: cancel the periodic timer and remove the
visibility subscription. -/
def stopSessionMonitor (s : SecState) : SecState :=
  { s with monitorRunning := false, visibilityHandlerInstalled := false }

/-- The invalidation sequence repeated at every invalidation site of
`core.js`: `stopSessionMonitor(); stopProactiveRefresh(); clearToken();
clearRefreshToken(); notifySessionInvalid(reason)`. -/
def invalidateSession (reason : String) (s : SecState) : SecState × List Notif :=
  let s1 := stopProactiveRefresh (stopSessionMonitor s)
  let (st1, _) := clearToken s1.core.store
  let st2 := clearRefreshToken st1
  let s2 := { s1 with core := { s1.core with store := st2 } }
  (s2, notifySessionInvalid reason s2)

/-! ## Proactive refresh scheduler (`core.js`, `startProactiveRefresh`) -/

/-- What `startProactiveRefresh()` did: nothing (returned `null`), an
immediate refresh attempt (token already expired), or a scheduled timer. -/
inductive StartEffect where
  | nothing
  | immediateRefresh (call : RefreshCall)
  | scheduled (delayMs : Int)
deriving DecidableEq

/-- `startProactiveRefresh()`: return early when disabled; cancel any
existing timer; return after the cancellation when no token is present;
refresh immediately (with a `token_expired` catch) when the token is
expired; otherwise schedule the refresh in
`max(0, timeUntilExpiry - tokenRefreshBuffer) * 1000` ms. -/
def startProactiveRefresh (decode : String → Option JwtPayload) (cfg : Config)
    (now : ℚ) (s : SecState) (fresh : Nat) : SecState × StartEffect :=
  if !cfg.enableProactiveRefresh then (s, .nothing)
  else
    let s1 := stopProactiveRefresh s
    let (token, store1) := getToken s1.core.store
    let s2 := { s1 with core := { s1.core with store := store1 } }
    if !jsTruthy token then (s2, .nothing)
    else
      let timeUntilExpiry := getTimeUntilExpiry decode token now
      if timeUntilExpiry ≤ 0 then
        let (core1, call, _) := refreshTokenCall s2.core fresh
        ({ s2 with core := core1 }, .immediateRefresh call)
      else
        let refreshIn := max 0 (timeUntilExpiry - cfg.tokenRefreshBuffer) * 1000
        ({ s2 with proactiveRefreshTimer := some refreshIn }, .scheduled refreshIn)

/-- The permanent-failure classifier of the proactive timer handler:
the lower-cased message is matched against the five substrings
`401`, `revoked`, `invalid`, `expired`, `unauthorized`. -/
def isPermanentFailure (msg : String) : Bool :=
  let errorMessage := lowStr msg
  containsSub errorMessage "401".data ||
  containsSub errorMessage "revoked".data ||
  containsSub errorMessage "invalid".data ||
  containsSub errorMessage "expired".data ||
  containsSub errorMessage "unauthorized".data

/-- The failure branch of the proactive timer handler: permanent failures
notify `refresh_token_revoked`; transient ones schedule a 30-second
backoff timer that restarts the whole cycle, with no notification. -/
def proactiveFireFailureHandler (s : SecState) (msg : String) :
    SecState × List Notif :=
  if isPermanentFailure msg then
    (s, notifySessionInvalid "refresh_token_revoked" s)
  else
    ({ s with proactiveRefreshTimer := some 30000 }, [])

/-! ## Session monitor (`core.js`, `startSessionMonitor`)

The periodic tick and the visibility handler are embedded as trace steps;
the validation fetch inside a tick is parameterised by its outcome.  The
only `await` the trace keeps suspended is the shared refresh promise,
whose continuations are FIFO waiters (promise reactions run in the order
they were attached). -/

/-- `startSessionMonitor(onInvalid)`: register the callback, restart the
periodic timer and (when configured) the visibility subscription; skip
when disabled or no token is present. -/
def startSessionMonitor (cfg : Config) (onInvalid : Option Nat) (s : SecState) :
    SecState :=
  if !cfg.enableSessionValidation then s
  else
    let s0 :=
      match onInvalid with
      | some cb =>
        if s.sessionInvalidCallbacks.contains cb then s
        else { s with sessionInvalidCallbacks := s.sessionInvalidCallbacks ++ [cb] }
      | none => s
    let s1 := stopSessionMonitor s0
    let (token, store1) := getToken s1.core.store
    let s2 := { s1 with core := { s1.core with store := store1 } }
    if !jsTruthy token then s2
    else { s2 with monitorRunning := true,
                   visibilityHandlerInstalled := cfg.validateOnVisibility }

/-- The validation part of a periodic tick: call
`validateCurrentSession()`; an invalid result invalidates with
`session_deleted`; an error is caught by the tick's `catch` and ignored
until the next tick. -/
def monitorValidate (cfg : Config) (s : SecState) (vf : ValidationFetch) :
    SecState × List Notif :=
  let (tok, store1) := getToken s.core.store
  let s0 := { s with core := { s.core with store := store1 } }
  match validateCurrentSession cfg tok vf with
  | .error _ => (s0, [])
  | .ok true => (s0, [])
  | .ok false => invalidateSession "session_deleted" s0

/-- A continuation pending on the shared refresh promise, in attach
order: the `catch` of the immediate proactive refresh, the proactive
timer handler, a periodic tick that refreshed an expired token before
validating, or the visibility handler's silent-refresh path. -/
inductive Waiter where
  | proactiveImmediate
  | proactiveFire (now : ℚ)
  | monitorTickAwait (vf : ValidationFetch)
  | visibilityAwait (hiddenLong : Bool) (vf : ValidationFetch)
deriving DecidableEq

/-- A trace state: the module state plus the FIFO of continuations
attached to the pending refresh promise and a fresh-promise-id supply. -/
structure TraceState where
  sec : SecState
  waiters : List Waiter
  nextPid : Nat
deriving DecidableEq

/-- Reaction of a pending continuation to the refresh promise rejecting
with message `msg` (the promise body has already cleared the tokens and
released the guard). -/
def waiterOnReject (s : SecState) (msg : String) : Waiter → SecState × List Notif
  | .proactiveImmediate => (s, notifySessionInvalid "token_expired" s)
  | .proactiveFire _ => proactiveFireFailureHandler s msg
  | .monitorTickAwait _ => invalidateSession "session_deleted" s
  | .visibilityAwait _ _ => invalidateSession "session_deleted_while_hidden" s

/-- Reaction of a pending continuation to the refresh promise resolving:
the immediate-refresh `catch` does nothing; the timer handler restarts
the scheduling cycle; a tick continues with its validation; the
visibility handler re-validates when the tab was hidden long (an invalid
result, or an error thrown into its `catch`, invalidates). -/
def waiterOnResolve (decode : String → Option JwtPayload) (cfg : Config)
    (s : SecState) (fresh : Nat) : Waiter → SecState × List Notif × List Waiter
  | .proactiveImmediate => (s, [], [])
  | .proactiveFire now =>
    let (s1, eff) := startProactiveRefresh decode cfg now s fresh
    (s1, [],
      match eff with
      | .immediateRefresh _ => [.proactiveImmediate]
      | _ => [])
  | .monitorTickAwait vf =>
    let (s1, ns) := monitorValidate cfg s vf
    (s1, ns, [])
  | .visibilityAwait hiddenLong vf =>
    if hiddenLong then
      let (tok, store1) := getToken s.core.store
      let s0 := { s with core := { s.core with store := store1 } }
      match validateCurrentSession cfg tok vf with
      | .ok true => (s0, [], [])
      | .ok false =>
        let (s1, ns) := invalidateSession "session_deleted_while_hidden" s0
        (s1, ns, [])
      | .error _ =>
        let (s1, ns) := invalidateSession "session_deleted_while_hidden" s0
        (s1, ns, [])
    else (s, [], [])

/-- The synchronous prefix of a periodic tick: stop self without a token;
if the token is expired, start or join the refresh and suspend; otherwise
validate within this tick. -/
def monitorTickBegin (decode : String → Option JwtPayload) (cfg : Config)
    (now : ℚ) (t : TraceState) (vf : ValidationFetch) : TraceState × List Notif :=
  let (currentToken, store1) := getToken t.sec.core.store
  let s0 := { t.sec with core := { t.sec.core with store := store1 } }
  if !jsTruthy currentToken then
    ({ t with sec := stopSessionMonitor s0 }, [])
  else
    let ttl := getTimeUntilExpiry decode currentToken now
    if ttl ≤ 0 then
      let (core1, _, _) := refreshTokenCall s0.core t.nextPid
      ({ t with sec := { s0 with core := core1 },
                waiters := t.waiters ++ [.monitorTickAwait vf],
                nextPid := t.nextPid + 1 }, [])
    else
      let (s1, ns) := monitorValidate cfg s0 vf
      ({ t with sec := s1 }, ns)

/-- The visibility handler's visible branch, with the elapsed hidden
duration supplied by the trace event: skip briefly-hidden valid tokens;
server-validate long-hidden valid tokens; silently refresh expired
tokens (suspending on the refresh promise). -/
def visibilityVisibleStep (decode : String → Option JwtPayload) (cfg : Config)
    (now : ℚ) (hiddenDuration : Int) (t : TraceState) (vf : ValidationFetch) :
    TraceState × List Notif :=
  if !t.sec.visibilityHandlerInstalled then (t, [])
  else
    let (currentToken, store1) := getToken t.sec.core.store
    let s0 := { t.sec with core := { t.sec.core with store := store1 } }
    if !jsTruthy currentToken then ({ t with sec := s0 }, [])
    else
      let ttl := getTimeUntilExpiry decode currentToken now
      if ttl > 0 ∧ hiddenDuration < cfg.sessionValidationInterval then
        ({ t with sec := s0 }, [])
      else if ttl > 0 ∧ hiddenDuration ≥ cfg.sessionValidationInterval then
        match validateCurrentSession cfg currentToken vf with
        | .ok true => ({ t with sec := s0 }, [])
        | .ok false =>
          let (s1, ns) := invalidateSession "session_deleted_while_hidden" s0
          ({ t with sec := s1 }, ns)
        | .error _ => ({ t with sec := s0 }, [])
      else
        let (core1, _, _) := refreshTokenCall s0.core t.nextPid
        ({ t with
            sec := { s0 with core := core1 },
            waiters := t.waiters ++
              [.visibilityAwait (decide (hiddenDuration ≥ cfg.sessionValidationInterval)) vf],
            nextPid := t.nextPid + 1 }, [])

/-- Settlement of the pending refresh promise: run the promise body
(`settleRefresh`), then every pending continuation in FIFO order.
Resolution may attach new continuations (to a freshly started refresh). -/
def settleStep (decode : String → Option JwtPayload) (cfg : Config)
    (t : TraceState) (o : FetchOutcome) : TraceState × List Notif :=
  if t.sec.core.refreshPromise.isNone then (t, [])
  else
    let (core2, res, _) := settleRefresh cfg t.sec.core o
    let s1 := { t.sec with core := core2 }
    match res with
    | .error msg =>
      let folded := t.waiters.foldl
        (fun acc w =>
          let (s', ns) := waiterOnReject acc.1 msg w
          (s', acc.2 ++ ns)) (s1, ([] : List Notif))
      ({ t with sec := folded.1, waiters := [] }, folded.2)
    | .ok _ =>
      let folded := t.waiters.foldl
        (fun acc w =>
          let (s, ns, nws, pid) := acc
          let (s', ns', nw) := waiterOnResolve decode cfg s pid w
          (s', ns ++ ns', nws ++ nw, pid + 1))
        (s1, ([] : List Notif), ([] : List Waiter), t.nextPid)
      let (s2, notifs, newWaiters, pid2) := folded
      ({ t with sec := s2, waiters := newWaiters, nextPid := pid2 }, notifs)

/-- Events of the cooperative-scheduling trace. -/
inductive TraceEvent where
  | startProactive (now : ℚ)
  | proactiveTimerFires (now : ℚ)
  | monitorTick (now : ℚ) (vf : ValidationFetch)
  | visibilityVisible (now : ℚ) (hiddenDuration : Int) (vf : ValidationFetch)
  | settle (o : FetchOutcome)
deriving DecidableEq

/-- One step of the trace semantics. -/
def traceStep (decode : String → Option JwtPayload) (cfg : Config)
    (t : TraceState) : TraceEvent → TraceState × List Notif
  | .startProactive now =>
    let (s1, eff) := startProactiveRefresh decode cfg now t.sec t.nextPid
    let ws :=
      match eff with
      | .immediateRefresh _ => t.waiters ++ [.proactiveImmediate]
      | _ => t.waiters
    ({ t with sec := s1, waiters := ws, nextPid := t.nextPid + 1 }, [])
  | .proactiveTimerFires now =>
    match t.sec.proactiveRefreshTimer with
    | none => (t, [])
    | some _ =>
      let s0 := { t.sec with proactiveRefreshTimer := none }
      let (core1, _, _) := refreshTokenCall s0.core t.nextPid
      ({ t with sec := { s0 with core := core1 },
                waiters := t.waiters ++ [.proactiveFire now],
                nextPid := t.nextPid + 1 }, [])
  | .monitorTick now vf =>
    if t.sec.monitorRunning then monitorTickBegin decode cfg now t vf else (t, [])
  | .visibilityVisible now hiddenDuration vf =>
    visibilityVisibleStep decode cfg now hiddenDuration t vf
  | .settle o => settleStep decode cfg t o

/-- Run a list of trace events, concatenating the emitted notifications. -/
def runTrace (decode : String → Option JwtPayload) (cfg : Config)
    (t : TraceState) : List TraceEvent → TraceState × List Notif
  | [] => (t, [])
  | e :: es =>
    let (t1, ns) := traceStep decode cfg t e
    let (t2, ns2) := runTrace decode cfg t1 es
    (t2, ns ++ ns2)

/-! ## Callback processor (`core.js`, `handleCallback`) -/

/-- The auth-related query parameters of the current URL. -/
structure UrlParams where
  access_token : Option String
  refresh_token : Option String
  state : Option String
  error : Option String
  error_description : Option String
deriving DecidableEq

/-- State touched by `handleCallback`: the token store, the
`callbackProcessed` latch, the URL and the session-scoped bookkeeping. -/
structure CallbackState where
  store : TokenStore
  callbackProcessed : Bool
  url : UrlParams
  originalApp : Option String
  returnUrl : Option String
deriving DecidableEq

/-- Deleting the five auth-related query parameters before
`history.replaceState`. -/
def stripAuthParams (_u : UrlParams) : UrlParams :=
  ⟨none, none, none, none, none⟩

/-- The processing part of `handleCallback` (after the latch check): set
the latch, clear session bookkeeping, throw on an error parameter, store
the token and strip the URL on success, throw when neither is present. -/
def processCallback (cfg : Config) (s : CallbackState) :
    CallbackState × Except String JSVal :=
  let s1 := { s with callbackProcessed := true, originalApp := none, returnUrl := none }
  if strTruthy s1.url.error then
    let errorDescription :=
      if strTruthy s1.url.error_description then s1.url.error_description.getD ""
      else s1.url.error.getD ""
    (s1, .error ("Authentication failed: " ++ errorDescription))
  else if strTruthy s1.url.access_token then
    let a := s1.url.access_token.getD ""
    let (st1, _) := setToken (.str a) s1.store
    let st2 :=
      if strTruthy s1.url.refresh_token &&
          (cfg.persistRefreshToken || cfg.isHttpDev) then
        setRefreshToken cfg (s1.url.refresh_token.getD "") st1
      else st1
    ({ s1 with store := st2, url := stripAuthParams s1.url }, .ok (.str a))
  else
    (s1, .error "No access token found in callback URL")

/-- `handleCallback()`: when the latch is set, return the stored token if
one exists; otherwise reset the latch and reprocess. -/
def handleCallback (cfg : Config) (s : CallbackState) :
    CallbackState × Except String JSVal :=
  if s.callbackProcessed then
    let (existingToken, store1) := getToken s.store
    if jsTruthy existingToken then
      ({ s with store := store1 }, .ok (existingToken.getD .null))
    else
      processCallback cfg { s with store := store1, callbackProcessed := false }
  else processCallback cfg s

/-- `resetCallbackState()`. -/
def resetCallbackState (s : CallbackState) : CallbackState :=
  { s with callbackProcessed := false }

/-! ## Concrete instances used by the claims -/

/-- A decode function that fails on every input: the model of a token
with no decodable payload. -/
def undecodableDecode : String → Option JwtPayload := fun _ => none

/-- A store already holding the token `a`, with one registered
listener. -/
def c3Store : TokenStore :=
  ⟨some (.str "a"), some (.str "a"), none, none, none, [0]⟩

/-- A configuration with proactive refresh enabled. -/
def c6Cfg : Config := ⟨true, 60, true, 600000, true, false, false, true⟩

/-- A state with no token anywhere but a pending proactive timer. -/
def c6Sec : SecState :=
  ⟨⟨⟨none, none, none, none, none, []⟩, false, none⟩, some 5000, false, false, []⟩

/-- Modelled from the spec: the classifier the claim describes, matching
only the four substrings unauthorized/expired/revoked/invalid against the
lower-cased message.  Defined solely to compare the claim's classifier
with the code's `isPermanentFailure`, which additionally matches `401`. -/
def specClaimPermanent (msg : String) : Bool :=
  let m := lowStr msg
  containsSub m "unauthorized".data || containsSub m "expired".data ||
  containsSub m "revoked".data || containsSub m "invalid".data

/-- A running-monitor state with one registered session-invalid
callback. -/
def c7Sec : SecState :=
  ⟨⟨⟨none, none, none, none, none, []⟩, false, none⟩, none, true, false, [0]⟩

/-- A decode function whose payloads carry no exp claim: every such token
counts as already expired (`getTimeUntilExpiry = -1`). -/
def c8Decode : String → Option JwtPayload := fun _ => some ⟨none⟩

/-- Full-featured configuration for the double-notification trace. -/
def c8Cfg : Config := ⟨true, 60, true, 600000, true, false, true, true⟩

/-- Start state: expired token held, monitor running, one registered
session-invalid callback, no pending refresh. -/
def c8Start : TraceState :=
  ⟨⟨⟨⟨some (.str "t"), some (.str "t"), none, none, none, []⟩, false, none⟩,
      none, true, true, [0]⟩, [], 0⟩

/-- The trace: proactive refresh starts (expired token, immediate refresh
with a pending `catch`), a periodic tick joins the same in-flight
refresh, and the refresh then fails. -/
def c8Events : List TraceEvent :=
  [.startProactive 0, .monitorTick 0 (.response true 200 "OK" (.bool true)),
   .settle (.netError "connection reset")]

/-! ## Helper lemmas -/

/-- `writeAccessToken` only rewrites the persistent `authToken` entry. -/
theorem writeAccessToken_eq (tok : Option JSVal) (st : TokenStore) :
    writeAccessToken tok st =
      { st with localAuthToken := if jsTruthy tok then tok else none } := by
  unfold writeAccessToken
  split <;> simp_all

/-! ## Claim C2: expiry helpers -/

/-- C2 counterexample: for a token with no decodable exp claim,
`getTimeUntilExpiry` is `-1` but `willExpireSoon` is `false`, not `true`
as the claim asserts (the code requires `timeLeft >= 0`, which `-1`
fails). -/
theorem willExpireSoon_undecodable_counterexample :
    getTimeUntilExpiry undecodableDecode (some (.str "not-a-jwt")) 0 = -1 ∧
    willExpireSoon undecodableDecode (some (.str "not-a-jwt")) 60 0 = false := by
  decide

/-- C2 (amended): `willExpireSoon(token, w)` is true iff
`0 <= getTimeUntilExpiry(token) <= w`; a token with no decodable exp
claim has time-until-expiry `-1` and `willExpireSoon` returns `false`
for it (not `true`): the boundary at `-1` falls outside the window. -/
theorem willExpireSoon_iff (decode : String → Option JwtPayload)
    (token : Option JSVal) (w : Int) (now : ℚ) :
    (willExpireSoon decode token w now = true ↔
      0 ≤ getTimeUntilExpiry decode token now ∧
        getTimeUntilExpiry decode token now ≤ w) ∧
    (∀ s, token = some (.str s) → decode s = none →
      getTimeUntilExpiry decode token now = -1 ∧
        willExpireSoon decode token w now = false) := by
  constructor
  · simp [willExpireSoon, Bool.and_eq_true, decide_eq_true_eq, ge_iff_le]
  · intro s hs hd
    subst hs
    have h1 : getTimeUntilExpiry decode (some (.str s)) now = -1 := by
      simp only [getTimeUntilExpiry, decodeVal, hd]
      split <;> rfl
    refine ⟨h1, ?_⟩
    simp [willExpireSoon, h1]

/-- C2 witness: the amended theorem applied to a concrete undecodable
token. -/
theorem willExpireSoon_iff_witness :
    getTimeUntilExpiry undecodableDecode (some (.str "x")) 0 = -1 ∧
    willExpireSoon undecodableDecode (some (.str "x")) 60 0 = false :=
  (willExpireSoon_iff undecodableDecode (some (.str "x")) 60 0).2 "x" rfl rfl

/-! ## Claim C3: listener firing on `setToken` -/

/-- C3 counterexample: when the store already holds `a`, the sequence
`setToken(a); setToken(a)` fires the registered listener zero times, not
exactly once as the claim asserts for every token and store state. -/
theorem setToken_twice_counterexample :
    (((setToken (.str "a") c3Store).2 ++
        (setToken (.str "a") (setToken (.str "a") c3Store).1).2).filter
      (fun c => c.listener = 0)).length = 0 := by
  decide

/-- C3 (amended): `setToken(v)` invokes listeners, each with
`(newToken, previousToken)`, iff the stored (normalised) value actually
changed; and provided the store does not already hold the normalised
value of `a`, the sequence `setToken(a); setToken(a)` fires each listener
exactly once and the second call is a listener-level no-op. -/
theorem setToken_listener_calls (v : JSVal) (st : TokenStore) :
    ((setToken v st).2 ≠ [] ↔ st.accessToken ≠ jsNorm v ∧ st.listeners ≠ []) ∧
    (∀ c ∈ (setToken v st).2,
      c.newToken = jsNorm v ∧ c.previousToken = st.accessToken) ∧
    (st.accessToken ≠ jsNorm v →
      (setToken v st).2 =
        st.listeners.map (fun l => ⟨l, jsNorm v, st.accessToken⟩) ∧
      (setToken v (setToken v st).1).2 = []) := by
  by_cases h : st.accessToken = jsNorm v
  · refine ⟨?_, ?_, fun hc => absurd h hc⟩
    · simp [setToken, writeAccessToken_eq, h]
    · simp [setToken, writeAccessToken_eq, h]
  · refine ⟨?_, ?_, fun _ => ⟨?_, ?_⟩⟩
    · simp [setToken, writeAccessToken_eq, h]
    · intro c hc
      simp only [setToken, writeAccessToken_eq] at hc
      rw [if_pos (Ne.symm (by exact fun he => h he.symm))] at hc
      simp only [List.mem_map] at hc
      obtain ⟨l, _, rfl⟩ := hc
      exact ⟨rfl, rfl⟩
    · simp [setToken, writeAccessToken_eq, h]
    · simp [setToken, writeAccessToken_eq, h]

/-- C3 witness: the amended theorem applied to an empty store receiving a
fresh token with one registered listener. -/
theorem setToken_listener_calls_witness :
    (setToken (.str "a") ⟨none, none, none, none, none, [0]⟩).2 =
      [⟨0, some (.str "a"), none⟩] ∧
    (setToken (.str "a")
      (setToken (.str "a") ⟨none, none, none, none, none, [0]⟩).1).2 = [] := by
  have h := (setToken_listener_calls (.str "a")
    ⟨none, none, none, none, none, [0]⟩).2.2 (by decide)
  exact ⟨by rw [h.1]; decide, h.2⟩

/-! ## Claim C10: falsy arguments to `setToken` -/

/-- C10: every falsy argument to `setToken` is normalised to a stored
`null`, persistent storage is cleared, listeners fire (with new value
`null`) only when a token was held, and all falsy inputs produce the
identical result. -/
theorem setToken_falsy_clears (v : JSVal) (st : TokenStore)
    (h : v.truthy = false) :
    (setToken v st).1.accessToken = none ∧
    (setToken v st).1.localAuthToken = none ∧
    (st.accessToken = none → (setToken v st).2 = []) ∧
    (∀ p, st.accessToken = some p →
      (setToken v st).2 = st.listeners.map (fun l => ⟨l, none, some p⟩)) ∧
    (∀ w : JSVal, w.truthy = false → setToken w st = setToken v st) := by
  have hn : jsNorm v = none := by simp [jsNorm, h]
  refine ⟨?_, ?_, ?_, ?_, ?_⟩
  · simp only [setToken, hn, writeAccessToken_eq]
    split <;> rfl
  · simp only [setToken, hn, writeAccessToken_eq]
    split <;> simp [jsTruthy]
  · intro h0
    simp [setToken, hn, h0, writeAccessToken_eq]
  · intro p hp
    simp [setToken, hn, hp, writeAccessToken_eq, jsTruthy]
  · intro w hw
    have hw2 : jsNorm w = none := by simp [jsNorm, hw]
    simp only [setToken, hn, hw2]

/-- C10 witness: the theorem applied to `null` on a store holding a
token. -/
theorem setToken_falsy_clears_witness :
    (setToken .null ⟨some (.str "t"), some (.str "t"), none, none, none, [3]⟩).1.accessToken = none ∧
    (setToken .null ⟨some (.str "t"), some (.str "t"), none, none, none, [3]⟩).2 =
      [⟨3, none, some (.str "t")⟩] ∧
    setToken (.str "") ⟨some (.str "t"), some (.str "t"), none, none, none, [3]⟩ =
      setToken .null ⟨some (.str "t"), some (.str "t"), none, none, none, [3]⟩ := by
  have h := setToken_falsy_clears .null
    ⟨some (.str "t"), some (.str "t"), none, none, none, [3]⟩ (by decide)
  refine ⟨h.1, ?_, h.2.2.2.2 (.str "") (by decide)⟩
  rw [h.2.2.2.1 (.str "t") rfl]
  decide

/-! ## Claim C1: at most one refresh in flight -/

/-- C1: while a refresh is pending (guard set, promise stored), every
further `refreshToken()` call returns the same pending promise, leaves
the state untouched and issues no network request — so all concurrent
callers share the one settlement value; once the promise settles the
`finally` block releases the guard and drops the promise, and the next
call takes the guard and issues exactly one fresh network request. -/
theorem refreshToken_single_flight (cfg : Config) (s : CoreState)
    (p fresh fresh2 : Nat) (o : FetchOutcome)
    (h1 : s.refreshInProgress = true) (h2 : s.refreshPromise = some p) :
    refreshTokenCall s fresh = (s, .joined p, 0) ∧
    (settleRefresh cfg s o).1.refreshInProgress = false ∧
    (settleRefresh cfg s o).1.refreshPromise = none ∧
    refreshTokenCall (settleRefresh cfg s o).1 fresh2 =
      ({ (settleRefresh cfg s o).1 with
          refreshInProgress := true, refreshPromise := some fresh2 },
        .started fresh2, 1) := by
  have hcall : refreshTokenCall s fresh = (s, .joined p, 0) := by
    simp [refreshTokenCall, h1, h2]
  have hsettle : (settleRefresh cfg s o).1.refreshInProgress = false ∧
      (settleRefresh cfg s o).1.refreshPromise = none := by
    unfold settleRefresh
    rcases hres : refreshAttemptResult o with msg | pair
    · exact ⟨rfl, rfl⟩
    · exact ⟨rfl, rfl⟩
  refine ⟨hcall, hsettle.1, hsettle.2, ?_⟩
  simp [refreshTokenCall, hsettle.1]

/-- C1 witness: concrete pending state, joined caller, then a settled
failure followed by a fresh start. -/
theorem refreshToken_single_flight_witness :
    refreshTokenCall ⟨⟨none, none, none, none, none, []⟩, true, some 5⟩ 9 =
      (⟨⟨none, none, none, none, none, []⟩, true, some 5⟩, .joined 5, 0) ∧
    (settleRefresh ⟨true, 60, true, 600000, true, false, true, true⟩
        ⟨⟨none, none, none, none, none, []⟩, true, some 5⟩
        (.netError "connection reset")).1.refreshInProgress = false := by
  have h := refreshToken_single_flight
    ⟨true, 60, true, 600000, true, false, true, true⟩
    ⟨⟨none, none, none, none, none, []⟩, true, some 5⟩
    5 9 10 (.netError "connection reset") rfl rfl
  exact ⟨h.1, h.2.1⟩

/-! ## Claim C4: refresh failure clears all token state and propagates -/

/-- C4: every failing refresh settlement — network error, non-ok status,
or a body without an access token — leaves both the access token and
every refresh-token storage location cleared, rejects with the original
error for every waiter, and any listener invocation it performs carries
`null` as the new value (with the full listener fan-out when a token was
actually held). -/
theorem refresh_failure_clears_state (cfg : Config) (s : CoreState)
    (o : FetchOutcome) (msg : String)
    (h : refreshAttemptResult o = .error msg)
    (hwf : s.store.accessToken = none ∨ jsTruthy s.store.accessToken = true) :
    (settleRefresh cfg s o).1.store.accessToken = none ∧
    (settleRefresh cfg s o).1.store.localAuthToken = none ∧
    (settleRefresh cfg s o).1.store.localRefreshToken = none ∧
    (settleRefresh cfg s o).1.store.cookieRefreshToken = none ∧
    (settleRefresh cfg s o).1.store.sessionRefreshToken = none ∧
    (settleRefresh cfg s o).2.1 = .error msg ∧
    (∀ c ∈ (settleRefresh cfg s o).2.2, c.newToken = none) ∧
    (jsTruthy s.store.accessToken = true →
      (settleRefresh cfg s o).2.2 =
        s.store.listeners.map (fun l => ⟨l, none, s.store.accessToken⟩)) := by
  unfold settleRefresh
  rw [h]
  by_cases ht : jsTruthy s.store.accessToken
  · simp only [clearToken, ht, Bool.not_true, Bool.false_eq_true, if_false,
      writeAccessToken_eq, clearRefreshToken, List.mem_map]
    refine ⟨by trivial, by simp [jsTruthy], by trivial, by trivial, by trivial,
      by trivial, ?_, ?_⟩
    · intro c hc
      obtain ⟨l, _, rfl⟩ := hc
      rfl
    · intro _
      simp [jsTruthy]
  · have hacc : s.store.accessToken = none := by
      rcases hwf with h0 | h0
      · exact h0
      · exact absurd h0 ht
    simp only [clearToken, ht, Bool.not_false, writeAccessToken_eq,
      clearRefreshToken]
    refine ⟨by simp [hacc], by simp [jsTruthy], by trivial, by trivial,
      by trivial, by trivial, by simp, fun hcon => ?_⟩
    exact absurd hcon (by simp_all)

/-- C4 witness: a 500 response clears everything and rejects. -/
theorem refresh_failure_clears_state_witness :
    (settleRefresh ⟨true, 60, true, 600000, true, false, true, true⟩
        ⟨⟨some (.str "t"), some (.str "t"), some "r", some "r", some "r", [7]⟩,
          true, some 0⟩
        (.netError "boom")).1.store.accessToken = none ∧
    (settleRefresh ⟨true, 60, true, 600000, true, false, true, true⟩
        ⟨⟨some (.str "t"), some (.str "t"), some "r", some "r", some "r", [7]⟩,
          true, some 0⟩
        (.netError "boom")).2.2 = [⟨7, none, some (.str "t")⟩] := by
  have h := refresh_failure_clears_state
    ⟨true, 60, true, 600000, true, false, true, true⟩
    ⟨⟨some (.str "t"), some (.str "t"), some "r", some "r", some "r", [7]⟩,
      true, some 0⟩
    (.netError "boom") "boom" rfl (Or.inr (by decide))
  refine ⟨h.1, ?_⟩
  rw [h.2.2.2.2.2.2.2 (by decide)]
  decide

/-! ## Claim C6: `startProactiveRefresh` behaviour -/

/-- `getToken` rewritten as a conditional, for calculation. -/
theorem getToken_eq (st : TokenStore) :
    getToken st =
      if jsTruthy st.accessToken then (st.accessToken, st)
      else (st.localAuthToken, { st with accessToken := st.localAuthToken }) :=
  rfl

/-- Updating `accessToken` to the value it already has is the identity. -/
theorem tokenStore_update_none (st : TokenStore) (h : st.accessToken = none) :
    { st with accessToken := none } = st := by
  cases st
  simp_all

/-- C6 counterexample: with proactive refresh enabled and no token
present, `startProactiveRefresh()` is not a no-op — it cancels the
pending proactive timer (the cancellation happens before the token
check), so the state changes. -/
theorem startProactiveRefresh_no_token_counterexample :
    (startProactiveRefresh undecodableDecode c6Cfg 0 c6Sec 0).2 = .nothing ∧
    c6Sec.proactiveRefreshTimer = some 5000 ∧
    (startProactiveRefresh undecodableDecode c6Cfg 0 c6Sec 0).1.proactiveRefreshTimer
      = none ∧
    (startProactiveRefresh undecodableDecode c6Cfg 0 c6Sec 0).1 ≠ c6Sec := by
  decide

/-- C6 (amended): `startProactiveRefresh()` is a complete no-op when
disabled by configuration; when no token is present it schedules nothing
but does cancel any existing proactive timer; with an unexpired token it
cancels any existing timer and schedules the refresh after
`max(0, timeUntilExpiry - tokenRefreshBuffer)` seconds (stored in ms);
with an expired token it triggers an immediate refresh attempt without
scheduling a timer, whose failure handler notifies invalidation with
reason `token_expired`. -/
theorem startProactiveRefresh_behaviour (decode : String → Option JwtPayload)
    (cfg : Config) (now : ℚ) (s : SecState) (fresh : Nat) :
    (cfg.enableProactiveRefresh = false →
      startProactiveRefresh decode cfg now s fresh = (s, .nothing)) ∧
    (cfg.enableProactiveRefresh = true →
      s.core.store.accessToken = none → s.core.store.localAuthToken = none →
      startProactiveRefresh decode cfg now s fresh =
        (stopProactiveRefresh s, .nothing)) ∧
    (∀ v, cfg.enableProactiveRefresh = true →
      s.core.store.accessToken = some v → v.truthy = true →
      (0 < getTimeUntilExpiry decode (some v) now →
        startProactiveRefresh decode cfg now s fresh =
          ({ stopProactiveRefresh s with
              proactiveRefreshTimer :=
                some (max 0 (getTimeUntilExpiry decode (some v) now -
                  cfg.tokenRefreshBuffer) * 1000) },
            .scheduled (max 0 (getTimeUntilExpiry decode (some v) now -
              cfg.tokenRefreshBuffer) * 1000))) ∧
      (getTimeUntilExpiry decode (some v) now ≤ 0 →
        startProactiveRefresh decode cfg now s fresh =
          ({ stopProactiveRefresh s with
              core := (refreshTokenCall s.core fresh).1 },
            .immediateRefresh (refreshTokenCall s.core fresh).2.1) ∧
        (startProactiveRefresh decode cfg now s fresh).1.proactiveRefreshTimer
          = none ∧
        ∀ msg, waiterOnReject (startProactiveRefresh decode cfg now s fresh).1
            msg .proactiveImmediate =
          ((startProactiveRefresh decode cfg now s fresh).1,
            notifySessionInvalid "token_expired"
              (startProactiveRefresh decode cfg now s fresh).1))) := by
  refine ⟨fun h => ?_, fun he hacc hlocal => ?_, fun v he hacc htr => ⟨?_, ?_⟩⟩
  · simp [startProactiveRefresh, h]
  · obtain ⟨⟨⟨a1, a2, a3, a4, a5, a6⟩, b1, b2⟩, c1, c2, c3, c4⟩ := s
    simp only at hacc hlocal
    subst hacc hlocal
    simp [startProactiveRefresh, he, getToken_eq, jsTruthy,
      stopProactiveRefresh]
  · intro httl
    have hn : ¬(getTimeUntilExpiry decode (some v) now ≤ 0) := not_le.mpr httl
    simp [startProactiveRefresh, he, getToken_eq, hacc, htr, jsTruthy, hn,
      stopProactiveRefresh]
  · intro httl
    have hmain : startProactiveRefresh decode cfg now s fresh =
        ({ stopProactiveRefresh s with
            core := (refreshTokenCall s.core fresh).1 },
          .immediateRefresh (refreshTokenCall s.core fresh).2.1) := by
      simp [startProactiveRefresh, he, getToken_eq, hacc, htr, jsTruthy, httl,
        stopProactiveRefresh]
    refine ⟨hmain, ?_, fun msg => rfl⟩
    rw [hmain]
    rfl

/-- C6 witness: the amended theorem applied to an enabled configuration,
a token expiring 3600 seconds from now and a buffer of 60 seconds: the
refresh is scheduled 3540000 ms out. -/
theorem startProactiveRefresh_behaviour_witness :
    startProactiveRefresh (fun _ => some ⟨some 3600⟩) c6Cfg 0
      ⟨⟨⟨some (.str "t"), some (.str "t"), none, none, none, []⟩, false, none⟩,
        some 5000, true, false, [0]⟩ 0 =
      ({ stopProactiveRefresh
          ⟨⟨⟨some (.str "t"), some (.str "t"), none, none, none, []⟩, false,
            none⟩, some 5000, true, false, [0]⟩ with
          proactiveRefreshTimer := some 3540000 },
        .scheduled 3540000) := by
  have httl : getTimeUntilExpiry (fun _ => some ⟨some 3600⟩)
      (some (.str "t")) 0 = 3600 := by
    have hne : ("t" : String).isEmpty = false := by decide
    simp [getTimeUntilExpiry, decodeVal, JSVal.truthy, hne]
  have h := ((startProactiveRefresh_behaviour (fun _ => some ⟨some 3600⟩)
    c6Cfg 0
    ⟨⟨⟨some (.str "t"), some (.str "t"), none, none, none, []⟩, false, none⟩,
      some 5000, true, false, [0]⟩ 0).2.2 (.str "t") (by decide) rfl
      (by decide)).1 (by rw [httl]; decide)
  rw [h, httl]
  decide

/-! ## Claim C7: permanent-failure classification -/

/-- C7 counterexample: a failed refresh with message `Refresh failed:
401` (the message the code builds for a 401 response) contains none of
the claim's four substrings — per the claim it is a transient failure to
be retried — yet the code classifies it as permanent and notifies
invalidation with `refresh_token_revoked`. -/
theorem permanent_classifier_counterexample :
    refreshAttemptResult (.response false 401 ⟨none, none⟩) =
      .error "Refresh failed: 401" ∧
    specClaimPermanent "Refresh failed: 401" = false ∧
    proactiveFireFailureHandler c7Sec "Refresh failed: 401" =
      (c7Sec, [⟨0, "refresh_token_revoked"⟩]) := by
  exact ⟨rfl, by decide, by decide⟩

/-- C7 (amended): the proactive timer handler classifies a failure as
permanent iff the lower-cased message contains one of the five substrings
401/revoked/invalid/expired/unauthorized (the claim's four plus `401`);
permanent failures notify every callback with `refresh_token_revoked`,
transient ones schedule the fixed 30-second backoff with no
notification. -/
theorem proactive_failure_classification (s : SecState) (msg : String) :
    (isPermanentFailure msg = true →
      proactiveFireFailureHandler s msg =
        (s, notifySessionInvalid "refresh_token_revoked" s)) ∧
    (isPermanentFailure msg = false →
      proactiveFireFailureHandler s msg =
        ({ s with proactiveRefreshTimer := some 30000 }, [])) ∧
    isPermanentFailure msg =
      (specClaimPermanent msg || containsSub (lowStr msg) "401".data) := by
  refine ⟨fun h => ?_, fun h => ?_, ?_⟩
  · simp [proactiveFireFailureHandler, h]
  · simp [proactiveFireFailureHandler, h]
  · simp only [isPermanentFailure, specClaimPermanent]
    cases containsSub (lowStr msg) "401".data <;>
      cases containsSub (lowStr msg) "revoked".data <;>
      cases containsSub (lowStr msg) "invalid".data <;>
      cases containsSub (lowStr msg) "expired".data <;>
      cases containsSub (lowStr msg) "unauthorized".data <;> rfl

/-- C7 witness: a transient failure message schedules the 30-second
backoff and notifies nobody. -/
theorem proactive_failure_classification_witness :
    proactiveFireFailureHandler c7Sec "connection reset" =
      ({ c7Sec with proactiveRefreshTimer := some 30000 }, []) :=
  (proactive_failure_classification c7Sec "connection reset").2.1 (by decide)

/-! ## Claim C5: periodic validation tick -/

/-- C5: on a periodic tick with a token present and unexpired, a
false/invalid server validation result ends with the token store holding
`null`, the monitor and the proactive timer stopped, and each registered
invalidation callback (here: the single registered one) fired exactly
once with reason `session_deleted`; if the validation call instead fails
with an error, nothing is invalidated and all state is unchanged until
the next tick. -/
theorem monitor_tick_invalid_and_error (decode : String → Option JwtPayload)
    (cfg : Config) (now : ℚ) (t : TraceState) (vf : ValidationFetch)
    (v : JSVal) (cb : Nat)
    (hmon : t.sec.monitorRunning = true)
    (htok : t.sec.core.store.accessToken = some v)
    (htr : v.truthy = true)
    (httl : 0 < getTimeUntilExpiry decode (some v) now)
    (hcb : t.sec.sessionInvalidCallbacks = [cb]) :
    (validateCurrentSession cfg (some v) vf = .ok false →
      (traceStep decode cfg t (.monitorTick now vf)).1.sec.core.store.accessToken
        = none ∧
      (traceStep decode cfg t (.monitorTick now vf)).1.sec.monitorRunning
        = false ∧
      (traceStep decode cfg t (.monitorTick now vf)).1.sec.proactiveRefreshTimer
        = none ∧
      (traceStep decode cfg t (.monitorTick now vf)).2
        = [⟨cb, "session_deleted"⟩]) ∧
    (∀ msg, validateCurrentSession cfg (some v) vf = .error msg →
      traceStep decode cfg t (.monitorTick now vf) = (t, [])) := by
  have hn : ¬(getTimeUntilExpiry decode (some v) now ≤ 0) := not_le.mpr httl
  obtain ⟨⟨⟨⟨a1, a2, a3, a4, a5, a6⟩, b1, b2⟩, pt0, mr0, vh0, cb0⟩, ws0, np0⟩ := t
  simp only at hmon htok hcb
  subst hmon htok hcb
  have hget : getToken ⟨some v, a2, a3, a4, a5, a6⟩ =
      (some v, ⟨some v, a2, a3, a4, a5, a6⟩) := by
    rw [getToken_eq]
    simp [jsTruthy, htr]
  constructor
  · intro hval
    simp only [traceStep, if_true, monitorTickBegin, hget, jsTruthy, htr,
      Bool.not_true, Bool.false_eq_true, if_false, hn, monitorValidate, hval,
      invalidateSession, stopSessionMonitor, stopProactiveRefresh, clearToken,
      writeAccessToken_eq, clearRefreshToken, notifySessionInvalid]
    simp [jsTruthy, htr]
  · intro msg hval
    simp only [traceStep, if_true, monitorTickBegin, hget, jsTruthy, htr,
      Bool.not_true, Bool.false_eq_true, if_false, hn, monitorValidate, hval]

/-- C5 witness: a concrete running monitor whose validation returns
invalid, and one whose validation errors. -/
theorem monitor_tick_invalid_and_error_witness :
    (traceStep (fun _ => some ⟨some 3600⟩) c6Cfg
      ⟨⟨⟨⟨some (.str "t"), some (.str "t"), none, none, none, []⟩, false, none⟩,
          none, true, true, [4]⟩, [], 0⟩
      (.monitorTick 0 (.response true 200 "OK" (.bool false)))).2 =
      [⟨4, "session_deleted"⟩] ∧
    traceStep (fun _ => some ⟨some 3600⟩) c6Cfg
      ⟨⟨⟨⟨some (.str "t"), some (.str "t"), none, none, none, []⟩, false, none⟩,
          none, true, true, [4]⟩, [], 0⟩
      (.monitorTick 0 (.netError "fetch failed")) =
      (⟨⟨⟨⟨some (.str "t"), some (.str "t"), none, none, none, []⟩, false,
          none⟩, none, true, true, [4]⟩, [], 0⟩, []) := by
  have httl : 0 < getTimeUntilExpiry (fun _ => some ⟨some 3600⟩)
      (some (.str "t")) 0 := by
    have hne : ("t" : String).isEmpty = false := by decide
    simp [getTimeUntilExpiry, decodeVal, JSVal.truthy, hne]
  constructor
  · exact ((monitor_tick_invalid_and_error (fun _ => some ⟨some 3600⟩) c6Cfg 0
      ⟨⟨⟨⟨some (.str "t"), some (.str "t"), none, none, none, []⟩, false,
          none⟩, none, true, true, [4]⟩, [], 0⟩
      (.response true 200 "OK" (.bool false)) (.str "t") 4
      rfl rfl (by decide) httl rfl).1 (by decide)).2.2.2
  · exact (monitor_tick_invalid_and_error (fun _ => some ⟨some 3600⟩) c6Cfg 0
      ⟨⟨⟨⟨some (.str "t"), some (.str "t"), none, none, none, []⟩, false,
          none⟩, none, true, true, [4]⟩, [], 0⟩
      (.netError "fetch failed") (.str "t") 4
      rfl rfl (by decide) httl rfl).2 "fetch failed" (by decide)

/-! ## Claim C8: at most one notification per invalidation episode -/

/-- C8 counterexample: one failed refresh, reacted to by both the
immediate proactive-refresh `catch` and the periodic tick that awaited
the same promise, notifies the single registered callback twice —
`token_expired` while the monitor is still running (the episode has not
ended) and then `session_deleted` from the episode-ending invalidation
itself.  After the first two events the monitor still runs and two
continuations are pending on the one in-flight refresh. -/
theorem double_notification_counterexample :
    (runTrace c8Decode c8Cfg c8Start c8Events).2 =
      [⟨0, "token_expired"⟩, ⟨0, "session_deleted"⟩] ∧
    ((runTrace c8Decode c8Cfg c8Start c8Events).2.filter
      (fun n => n.callback = 0)).length = 2 ∧
    (runTrace c8Decode c8Cfg c8Start (c8Events.take 2)).1.sec.monitorRunning
      = true ∧
    (runTrace c8Decode c8Cfg c8Start (c8Events.take 2)).1.waiters.length = 2 := by
  decide

/-- Filtering the fan-out of one notification for a fixed callback yields
at most one entry when the callback set has no duplicates. -/
theorem notif_filter_le_one (cbs : List Nat) (cb : Nat) (r : String)
    (h : cbs.Nodup) :
    ((cbs.map (fun c => (⟨c, r⟩ : Notif))).filter
      (fun n => n.callback = cb)).length ≤ 1 := by
  induction cbs with
  | nil => simp
  | cons a l ih =>
    simp only [List.nodup_cons] at h
    by_cases hac : a = cb
    · subst hac
      have hz : ((l.map (fun c => (⟨c, r⟩ : Notif))).filter
          (fun n => n.callback = a)).length = 0 := by
        rw [List.length_eq_zero, List.filter_eq_nil_iff]
        intro n hn
        obtain ⟨c, hc, rfl⟩ := List.mem_map.mp hn
        simp only [decide_eq_true_eq]
        intro hca
        exact h.1 (hca ▸ hc)
      simp [List.filter_cons, hz]
    · have := ih h.2
      simp [List.filter_cons, hac, this]

/-- The notifications a rejected continuation emits: either none, or one
full fan-out over the registered callbacks with a single reason. -/
theorem waiterOnReject_notifs (s : SecState) (msg : String) (w : Waiter) :
    (waiterOnReject s msg w).2 = [] ∨
    ∃ r, (waiterOnReject s msg w).2 =
      s.sessionInvalidCallbacks.map (fun c => (⟨c, r⟩ : Notif)) := by
  cases w with
  | proactiveImmediate => exact Or.inr ⟨"token_expired", rfl⟩
  | proactiveFire now =>
    by_cases hperm : isPermanentFailure msg
    · exact Or.inr ⟨"refresh_token_revoked",
        by simp [waiterOnReject, proactiveFireFailureHandler, hperm,
          notifySessionInvalid]⟩
    · exact Or.inl (by simp [waiterOnReject, proactiveFireFailureHandler, hperm])
  | monitorTickAwait vf =>
    refine Or.inr ⟨"session_deleted", ?_⟩
    unfold waiterOnReject invalidateSession
    rcases hc : clearToken (stopProactiveRefresh (stopSessionMonitor s)).core.store
      with ⟨st1, calls⟩
    simp [hc, notifySessionInvalid, stopProactiveRefresh, stopSessionMonitor]
  | visibilityAwait hl vf =>
    refine Or.inr ⟨"session_deleted_while_hidden", ?_⟩
    unfold waiterOnReject invalidateSession
    rcases hc : clearToken (stopProactiveRefresh (stopSessionMonitor s)).core.store
      with ⟨st1, calls⟩
    simp [hc, notifySessionInvalid, stopProactiveRefresh, stopSessionMonitor]

/-- The notifications a resolved continuation emits: either none, or one
full fan-out over the registered callbacks with a single reason. -/
theorem waiterOnResolve_notifs (decode : String → Option JwtPayload)
    (cfg : Config) (s : SecState) (fresh : Nat) (w : Waiter) :
    (waiterOnResolve decode cfg s fresh w).2.1 = [] ∨
    ∃ r, (waiterOnResolve decode cfg s fresh w).2.1 =
      s.sessionInvalidCallbacks.map (fun c => (⟨c, r⟩ : Notif)) := by
  cases w with
  | proactiveImmediate => exact Or.inl rfl
  | proactiveFire now =>
    refine Or.inl ?_
    unfold waiterOnResolve
    rcases hs : startProactiveRefresh decode cfg now s fresh with ⟨s1, eff⟩
    simp [hs]
  | monitorTickAwait vf =>
    unfold waiterOnResolve monitorValidate
    rcases hg : getToken s.core.store with ⟨tok, store1⟩
    rcases hv : validateCurrentSession cfg tok vf with msg | b
    · exact Or.inl (by simp [hg, hv])
    · rcases b with _ | _
      · refine Or.inr ⟨"session_deleted", ?_⟩
        unfold invalidateSession
        rcases hc : clearToken (stopProactiveRefresh (stopSessionMonitor
          { s with core := { s.core with store := store1 } })).core.store
          with ⟨st1, calls⟩
        simp [hg, hv, hc, notifySessionInvalid, stopProactiveRefresh, stopSessionMonitor]
      · exact Or.inl (by simp [hg, hv])
  | visibilityAwait hl vf =>
    by_cases hhl : hl = true
    · subst hhl
      unfold waiterOnResolve
      rcases hg : getToken s.core.store with ⟨tok, store1⟩
      rcases hv : validateCurrentSession cfg tok vf with msg | b
      · refine Or.inr ⟨"session_deleted_while_hidden", ?_⟩
        unfold invalidateSession
        rcases hc : clearToken (stopProactiveRefresh (stopSessionMonitor
          { s with core := { s.core with store := store1 } })).core.store
          with ⟨st1, calls⟩
        simp [hg, hv, hc, notifySessionInvalid, stopProactiveRefresh, stopSessionMonitor]
      · rcases b with _ | _
        · refine Or.inr ⟨"session_deleted_while_hidden", ?_⟩
          unfold invalidateSession
          rcases hc : clearToken (stopProactiveRefresh (stopSessionMonitor
            { s with core := { s.core with store := store1 } })).core.store
            with ⟨st1, calls⟩
          simp [hg, hv, hc, notifySessionInvalid, stopProactiveRefresh, stopSessionMonitor]
        · exact Or.inl (by simp [hg, hv])
    · have hf : hl = false := by
        cases hl
        · rfl
        · exact absurd rfl hhl
      subst hf
      exact Or.inl rfl

/-- C8 (amended): each notification event fires each registered callback
once, and the settlement of an in-flight refresh with at most one pending
continuation notifies each callback at most once; only when several
triggers (proactive catch, tick, visibility handler) are pending on the
same failed refresh can a callback be notified more than once before the
episode ends. -/
theorem settle_single_waiter_notifies_once
    (decode : String → Option JwtPayload) (cfg : Config) (t : TraceState)
    (o : FetchOutcome) (cb : Nat)
    (hw : t.waiters.length ≤ 1)
    (hnd : t.sec.sessionInvalidCallbacks.Nodup) :
    (((settleStep decode cfg t o).2).filter
      (fun n => n.callback = cb)).length ≤ 1 := by
  unfold settleStep
  by_cases hp : t.sec.core.refreshPromise.isNone
  · simp [hp]
  · rcases hsr : settleRefresh cfg t.sec.core o with ⟨core2, res, calls⟩
    rcases hws : t.waiters with _ | ⟨w, ws⟩
    · rcases res with msg | a <;> simp [hp, hsr, hws]
    · have hnil : ws = [] := by
        rw [hws] at hw
        simpa using hw
      subst hnil
      rcases res with msg | a
      · rcases hwr : waiterOnReject { t.sec with core := core2 } msg w
          with ⟨s2, ns⟩
        have hcases := waiterOnReject_notifs { t.sec with core := core2 } msg w
        rw [hwr] at hcases
        rcases hcases with hn | ⟨r, hr⟩
        · have hn2 : ns = [] := hn
          simp [hp, hsr, hws, hwr, hn2]
        · have hr2 : ns = t.sec.sessionInvalidCallbacks.map
              (fun c => (⟨c, r⟩ : Notif)) := hr
          simp only [hp, Bool.false_eq_true, if_false, hsr, hws, hwr,
            List.foldl_cons, List.foldl_nil, List.nil_append, hr2]
          exact notif_filter_le_one _ _ _ hnd
      · rcases hwr : waiterOnResolve decode cfg { t.sec with core := core2 }
          t.nextPid w with ⟨s2, ns, nws⟩
        have hcases := waiterOnResolve_notifs decode cfg
          { t.sec with core := core2 } t.nextPid w
        rw [hwr] at hcases
        rcases hcases with hn | ⟨r, hr⟩
        · have hn2 : ns = [] := hn
          simp [hp, hsr, hws, hwr, hn2]
        · have hr2 : ns = t.sec.sessionInvalidCallbacks.map
              (fun c => (⟨c, r⟩ : Notif)) := hr
          simp only [hp, Bool.false_eq_true, if_false, hsr, hws, hwr,
            List.foldl_cons, List.foldl_nil, List.nil_append, hr2]
          exact notif_filter_le_one _ _ _ hnd

/-- C8 witness: the amended theorem at a concrete single-waiter state. -/
theorem settle_single_waiter_notifies_once_witness :
    ((settleStep c8Decode c8Cfg
      ⟨⟨⟨⟨some (.str "t"), some (.str "t"), none, none, none, []⟩, true,
          some 0⟩, none, true, true, [0]⟩, [.monitorTickAwait
            (.response true 200 "OK" (.bool true))], 1⟩
      (.netError "connection reset")).2.filter
      (fun n => n.callback = 0)).length ≤ 1 :=
  settle_single_waiter_notifies_once c8Decode c8Cfg
    ⟨⟨⟨⟨some (.str "t"), some (.str "t"), none, none, none, []⟩, true,
        some 0⟩, none, true, true, [0]⟩, [.monitorTickAwait
          (.response true 200 "OK" (.bool true))], 1⟩
    (.netError "connection reset") 0 (by decide) (by decide)

/-! ## Claim C9: `handleCallback` idempotency -/

/-- `setRefreshToken` never touches the access-token slots. -/
theorem setRefreshToken_accessToken (cfg : Config) (r : String)
    (st : TokenStore) :
    (setRefreshToken cfg r st).accessToken = st.accessToken := by
  unfold setRefreshToken clearRefreshToken
  split
  · rfl
  · split <;> rfl

/-- The stored value after `setToken` is the normalised argument. -/
theorem setToken_fst_accessToken (token : JSVal) (st : TokenStore) :
    (setToken token st).1.accessToken = jsNorm token := by
  simp only [setToken, writeAccessToken_eq]
  split <;> rfl

/-- A latch-hit call: with the latch set and a truthy stored token,
`handleCallback` returns the stored token and changes nothing. -/
theorem handleCallback_latch_hit (cfg : Config) (s : CallbackState)
    (v : JSVal) (h1 : s.callbackProcessed = true)
    (h2 : s.store.accessToken = some v) (h3 : v.truthy = true) :
    handleCallback cfg s = (s, .ok v) := by
  obtain ⟨⟨a1, a2, a3, a4, a5, a6⟩, p0, u0, o0, r0⟩ := s
  simp only at h1 h2
  subst h1 h2
  simp [handleCallback, getToken_eq, jsTruthy, h3]

/-- A fresh processing run with a token parameter and no error parameter
succeeds, sets the latch and stores the token. -/
theorem processCallback_success (cfg : Config) (s : CallbackState)
    (a : String) (h2 : s.url.access_token = some a) (h3 : a.isEmpty = false)
    (h4 : s.url.error = none) :
    (processCallback cfg s).2 = .ok (.str a) ∧
    (processCallback cfg s).1.callbackProcessed = true ∧
    (processCallback cfg s).1.store.accessToken = some (.str a) := by
  obtain ⟨st0, p0, ⟨u1, u2, u3, u4, u5⟩, o0, r0⟩ := s
  simp only at h2 h4
  subst h2 h4
  rcases hset : setToken (.str a) st0 with ⟨st1, calls⟩
  have hacc : st1.accessToken = some (.str a) := by
    have := setToken_fst_accessToken (.str a) st0
    rw [hset] at this
    simpa [jsNorm, JSVal.truthy, h3] using this
  refine ⟨?_, ?_, ?_⟩
  · simp [processCallback, strTruthy, h3]
  · simp [processCallback, strTruthy, h3]
  · simp only [processCallback, strTruthy, h3, Option.getD_some,
      Bool.not_false, Bool.false_eq_true, if_false, if_true, hset]
    split
    · rw [setRefreshToken_accessToken]
      exact hacc
    · exact hacc

/-- C9: while the processing latch is set, a second `handleCallback()`
returns the stored token without touching the URL, the store or the
latch and without throwing, provided a stored token exists; with the
latch set but no stored token, the call behaves exactly as a fresh
processing run (the latch resets); and after a successful fresh run the
next call returns the same token with the state unchanged (no
re-stripping of the already-absent query parameters). -/
theorem handleCallback_idempotent (cfg : Config) (s : CallbackState)
    (v : JSVal) :
    (s.callbackProcessed = true → s.store.accessToken = some v →
      v.truthy = true → handleCallback cfg s = (s, .ok v)) ∧
    (s.callbackProcessed = true → s.store.accessToken = none →
      s.store.localAuthToken = none →
      handleCallback cfg s =
        handleCallback cfg { s with callbackProcessed := false }) ∧
    (∀ a : String, s.callbackProcessed = false →
      s.url.access_token = some a → a.isEmpty = false → s.url.error = none →
      (handleCallback cfg s).2 = .ok (.str a) ∧
      handleCallback cfg (handleCallback cfg s).1 =
        ((handleCallback cfg s).1, .ok (.str a))) := by
  refine ⟨fun h1 h2 h3 => handleCallback_latch_hit cfg s v h1 h2 h3,
    fun h1 h2 h3 => ?_, fun a h1 h2 h3 h4 => ?_⟩
  · obtain ⟨⟨a1, a2, a3, a4, a5, a6⟩, p0, u0, o0, r0⟩ := s
    simp only at h1 h2 h3
    subst h1 h2 h3
    simp [handleCallback, getToken_eq, jsTruthy]
  · have hp := processCallback_success cfg s a h2 h3 h4
    have hfirst : handleCallback cfg s = processCallback cfg s := by
      simp [handleCallback, h1]
    rw [hfirst]
    exact ⟨hp.1, handleCallback_latch_hit cfg (processCallback cfg s).1
      (.str a) hp.2.1 hp.2.2 (by simp [JSVal.truthy, h3])⟩

/-- C9 witness: the theorem applied to a callback URL carrying a token,
processed twice. -/
theorem handleCallback_idempotent_witness :
    (handleCallback c8Cfg
      ⟨⟨none, none, none, none, none, []⟩, false,
        ⟨some "tok", none, none, none, none⟩, some "app", some "url"⟩).2 =
      .ok (.str "tok") ∧
    handleCallback c8Cfg
      (handleCallback c8Cfg
        ⟨⟨none, none, none, none, none, []⟩, false,
          ⟨some "tok", none, none, none, none⟩, some "app", some "url"⟩).1 =
      ((handleCallback c8Cfg
        ⟨⟨none, none, none, none, none, []⟩, false,
          ⟨some "tok", none, none, none, none⟩, some "app", some "url"⟩).1,
        .ok (.str "tok")) :=
  (handleCallback_idempotent c8Cfg
    ⟨⟨none, none, none, none, none, []⟩, false,
      ⟨some "tok", none, none, none, none⟩, some "app", some "url"⟩
    .null).2.2 "tok" rfl rfl (by decide) rfl

end AuthClient
